import Mathlib

/-!
# Verification of the `internetarchive` upload CLI and client operations

A shallow embedding of `internetarchive/cli/ia_upload.py` (argument
validation, the `_upload_files` helper, and the tail of `main`), together
with models of the library-level upload retry loop, debug mode, identifier
validation and the paginated search result, followed by theorems settling
the specification claims about them.
-/

namespace IA

/-- An HTTP response as the CLI observes it: status code, the request URL
it answers, its headers and body text.  Mirrors the attributes of a
`requests` response used by `ia_upload.py` (`status_code`, `url`,
`headers`, `content`, `ok`). -/
structure Response where
  statusCode : Nat
  url : String
  headers : List (String × String)
  content : String
deriving Repr, DecidableEq

/-- The `ok` attribute of a `requests` response: true exactly when the
status code is below 400. -/
def Response.ok (r : Response) : Bool :=
  r.statusCode < 400

/-- Python truthiness of an optional string (`None` and the empty string
are falsy, every other string is truthy).  `ia_upload.py` tests
`args['--remote-name']` this way. -/
def strOptTruthy : Option String → Bool
  | none => false
  | some s => s ≠ ""

/-! ## Argument validation (the `Schema` in `main`)

The `<file>` entry of the schema is
```
And(And(lambda f: all(os.path.exists(x) for x in f if x != '-'), ...),
    And(lambda f: False if f == ['-'] and not args['--remote-name'] else True, ...))
```
`ex` stands in for `os.path.exists`. -/

/-- First conjunct of the `<file>` schema entry: every listed path other
than the literal `-` must exist. -/
def fileArgExistsOk (ex : String → Bool) (files : List String) : Bool :=
  files.all fun x => x = "-" || ex x

/-- Second conjunct of the `<file>` schema entry: reject exactly when the
file list is the single element `['-']` and `--remote-name` is falsy. -/
def fileArgRemoteNameOk (files : List String) (remoteName : Option String) : Bool :=
  if files = ["-"] ∧ strOptTruthy remoteName = false then false else true

/-- The whole `<file>` schema entry: both conjuncts. -/
def fileArgOk (ex : String → Bool) (files : List String) (remoteName : Option String) : Bool :=
  fileArgExistsOk ex files && fileArgRemoteNameOk files remoteName

/-- Modelled from the spec: `internetarchive/utils.py` is not part of the
sources, only its test is; the spec states that identifier validation
succeeds exactly on strings matching `[A-Za-z0-9_-]{3,80}`.  This is the
character class of that pattern. -/
def isIdChar (c : Char) : Bool :=
  (decide ('A' ≤ c) && decide (c ≤ 'Z')) ||
    (decide ('a' ≤ c) && decide (c ≤ 'z')) ||
    (decide ('0' ≤ c) && decide (c ≤ '9')) ||
    c = '_' || c = '-'

/-- Modelled from the spec: `internetarchive/utils.py` is not part of the
sources; per the spec, `validate_ia_identifier` accepts a string exactly
when its length lies in `[3, 80]` and every character is alphanumeric, an
underscore or a dash. -/
def validate_ia_identifier (s : String) : Bool :=
  3 ≤ s.length && s.length ≤ 80 && s.data.all isIdChar

/-- The `<identifier>` schema entry: `Or(None, And(str, validate_ia_identifier))`. -/
def identifierOk : Option String → Bool
  | none => true
  | some s => validate_ia_identifier s

/-- The schema checks relevant to the upload claims: identifier and file
list.  Validation failure makes `main` print the error and
`sys.exit(1)` before any network activity. -/
def schemaOk (ex : String → Bool) (identifier : Option String) (files : List String)
    (remoteName : Option String) : Bool :=
  identifierOk identifier && fileArgOk ex files remoteName

/-- Outcome of schema validation at the top of `main`: on failure the
process exits with code 1 having issued no network request; on success
control proceeds and some number of requests follow.  The pair is
(exit code if validation exited, requests issued so far). -/
def mainValidate (ex : String → Bool) (identifier : Option String) (files : List String)
    (remoteName : Option String) (requestsIfProceed : Nat) : Option Nat × Nat :=
  if schemaOk ex identifier files remoteName then (none, requestsIfProceed)
  else (some 1, 0)

/-! ## Building the `files` argument passed to `Item.upload`

```
if args['-']:
    local_file = TemporaryFile()          # filled from stdin
else:
    local_file = args['<file>']
if isinstance(local_file, (list, tuple, set)) and args['--remote-name']:
    local_file = local_file[0]
if args['--remote-name']:
    files = {args['--remote-name']: local_file}
else:
    files = local_file
```
-/

/-- A local upload source: the stdin-backed temporary file, or a path from
the `<file>` argument list. -/
inductive LocalSource where
  | stdinTemp : LocalSource
  | path (p : String) : LocalSource
deriving Repr, DecidableEq

/-- The `files` value handed to `Item.upload`: a `{remote-name: source}`
mapping, a bare single source, or the raw path list. -/
inductive FilesArg where
  | named (remote : String) (src : LocalSource) : FilesArg
  | single (src : LocalSource) : FilesArg
  | list (ps : List String) : FilesArg
deriving Repr, DecidableEq

/-- The `files`-building block of `main`.  Returns `none` where the Python
raises `IndexError` (`local_file[0]` on an empty list). -/
def buildFiles (stdinFlag : Bool) (fileArgs : List String) (remoteName : Option String) :
    Option FilesArg :=
  if stdinFlag then
    if strOptTruthy remoteName then some (.named (remoteName.getD "") .stdinTemp)
    else some (.single .stdinTemp)
  else
    if strOptTruthy remoteName then
      match fileArgs with
      | f :: _ => some (.named (remoteName.getD "") (.path f))
      | [] => none
    else some (.list fileArgs)

/-! ## `_upload_files` and the tail of `main` -/

/-- What `item.upload(files, **upload_kwargs)` did from `_upload_files`'
point of view: returned a list of responses, or raised `HTTPError`
carrying an optional response (`exc.response` may be `None`). -/
inductive ItemUploadOutcome where
  | success (rs : List Response) : ItemUploadOutcome
  | httpError (r : Option Response) : ItemUploadOutcome
deriving Repr, DecidableEq

/-- The `responses` list after the `try`/`except` block of
`_upload_files`: previous responses extended with the outcome.  Entries
are optional because `exc.response` can be `None`. -/
def collectResponses (prev : List (Option Response)) : ItemUploadOutcome → List (Option Response)
  | .success rs => prev ++ rs.map some
  | .httpError r => prev ++ [r]

/-- The guard of the stderr error message in `_upload_files`' `finally`
block: `responses and responses[-1] and responses[-1].status_code != 200`. -/
def lastNon200 (rs : List (Option Response)) : Bool :=
  match rs.getLast? with
  | none => false
  | some none => false
  | some (some r) => r.statusCode ≠ 200

/-- Observable effects of one `_upload_files` call: the value returned to
the caller (`None` when the bare `return` in the `finally` block fires),
the responses whose debug description was printed, and whether the
stderr error message was printed. -/
structure UploadFilesRun where
  returned : Option (List (Option Response))
  printedDescriptions : List (Option Response)
  printedError : Bool
deriving Repr, DecidableEq

/-- Behaviour of `_upload_files` once `item.upload` has been resolved to `outcome`.
In debug mode the `for` loop over `responses` prints the first
description and then executes a bare `return` inside the `finally`
block, so the caller receives `None`; with no responses the loop body
never runs and control falls through to the error check and the final
`return responses`. -/
def uploadFiles (debug : Bool) (outcome : ItemUploadOutcome)
    (prev : List (Option Response)) : UploadFilesRun :=
  let responses := collectResponses prev outcome
  if debug then
    match responses with
    | [] => ⟨some responses, [], lastNon200 responses⟩
    | r :: _ => ⟨none, [r], false⟩
  else ⟨some responses, [], lastNon200 responses⟩

/-- The test `r and r.ok` over an entry of the responses list. -/
def respOk : Option Response → Bool
  | none => false
  | some r => r.ok

/-- The last statement of `main`:
`if responses and not all(r and r.ok for r in responses): sys.exit(1)`.
A `None` or empty `responses` is falsy, so the check is skipped and the
process exits 0. -/
def finalExit : Option (List (Option Response)) → Nat
  | none => 0
  | some rs => if rs ≠ [] ∧ ¬rs.all respOk then 1 else 0

/-- The exit code of the non-spreadsheet path of `main` once
`item.upload` has been resolved to `outcome`: `_upload_files` runs with
an empty previous-responses list and its return value feeds the final
check. -/
def mainExit (debug : Bool) (outcome : ItemUploadOutcome) : Nat :=
  finalExit (uploadFiles debug outcome []).returned

/-! ## The library upload operation (`Item.upload`)

Modelled from the spec: `internetarchive/item.py` is not part of the
sources.  Per the spec the operation builds one S3-style PUT request per
file; in debug mode it returns the description (endpoint + headers) of
every request instead of sending anything; otherwise it sends the PUT and
retries on the transient-overload signal (HTTP 503 SlowDown), sleeping a
fixed interval between attempts, until the retry budget is exhausted, and
returns the last response. -/

/-- A response at the upload layer: status code plus whether the body
marks the 503 as the SlowDown overload signal. -/
structure UResponse where
  status : Nat
  slowDown : Bool
deriving Repr, DecidableEq

/-- The transient-overload signal: HTTP 503 marked SlowDown. -/
def isOverload (r : UResponse) : Bool :=
  r.status = 503 && r.slowDown

/-- The description of the PUT request that would be (or is) sent for one
file: endpoint URL and headers. -/
structure RequestDescription where
  endpoint : String
  headers : List (String × String)
deriving Repr, DecidableEq

/-- One queued file of an upload batch: the prepared request description
and the oracle giving the response of the n-th PUT attempt for this
file. -/
structure UploadJob where
  desc : RequestDescription
  net : Nat → UResponse

/-- What the upload operation produced for one file: a response actually
received from the network, or (debug) the request description. -/
inductive FileResult where
  | sent (r : UResponse) : FileResult
  | described (d : RequestDescription) : FileResult

/-- Effect accounting for one file: the result plus how many PUT requests
were sent and how many times the operation slept. -/
structure FileRun where
  result : FileResult
  puts : Nat
  sleeps : Nat

/-- Modelled from the spec: the retry loop of `Item.upload` for one file.
Send the PUT (response given by `net attempt`); on the overload signal
with budget remaining, sleep, decrement the budget and retry; otherwise
return the response.  Returns the final response together with the
number of PUTs sent and the number of sleeps. -/
def retryLoop (net : Nat → UResponse) : Nat → Nat → UResponse × Nat × Nat
  | 0, attempt => (net attempt, 1, 0)
  | budget + 1, attempt =>
    let r := net attempt
    if isOverload r then
      let (res, puts, sleeps) := retryLoop net budget (attempt + 1)
      (res, puts + 1, sleeps + 1)
    else (r, 1, 0)

/-- Modelled from the spec: `Item.upload` handling of one file.  Debug
mode returns the request description and sends nothing; otherwise the
retry loop runs with the given budget. -/
def uploadFile (debug : Bool) (retries : Nat) (job : UploadJob) : FileRun :=
  if debug then ⟨.described job.desc, 0, 0⟩
  else
    let (r, puts, sleeps) := retryLoop job.net retries 0
    ⟨.sent r, puts, sleeps⟩

/-- Modelled from the spec: `Item.upload` over a batch of queued files.
Returns the per-file results and the total number of PUT requests
sent. -/
def uploadBatch (debug : Bool) (retries : Nat) (jobs : List UploadJob) :
    List FileResult × Nat :=
  (jobs.map fun j => (uploadFile debug retries j).result,
   (jobs.map fun j => (uploadFile debug retries j).puts).sum)

/-! ## The paginated search result

Modelled from the spec: `internetarchive/search.py` is not part of the
sources.  The search operation records the query, fetches the first page,
caches `numFound` from it (this is what `len` reports, no further pages
are fetched for it), and full iteration walks pages of `rows` documents
each until `numFound` documents have been yielded, one GET per page. -/

/-- One page of the search response envelope: the stable total count and
this page's documents (each a field-name/value mapping). -/
structure SearchPage where
  numFound : Nat
  docs : List (List (String × String))

/-- Modelled from the spec: `len(result)` comes from `numFound` of the
first page response alone. -/
def searchLen (fetch : Nat → SearchPage) : Nat :=
  (fetch 1).numFound

/-- Number of page GET requests needed to answer `len`: exactly one (the
first page). -/
def searchLenRequests : Nat := 1

/-- Pages required to yield `f` documents at `rows` per page:
`ceil(f / rows)`. -/
def pagesNeeded (f rows : Nat) : Nat :=
  (f + rows - 1) / rows

/-- Modelled from the spec: full iteration of the search result.  Pages
`1, 2, ...` are fetched in order, each contributing its documents, until
`numFound` (taken from the first page) documents have been produced. -/
def searchIterate (fetch : Nat → SearchPage) (rows : Nat) : List (List (String × String)) :=
  (List.range (pagesNeeded (fetch 1).numFound rows)).flatMap fun i => (fetch (i + 1)).docs

/-- GET requests issued by a full iteration: one per page. -/
def searchIterateRequests (fetch : Nat → SearchPage) (rows : Nat) : Nat :=
  pagesNeeded (fetch 1).numFound rows

/-! ## Concrete fixtures used by the witness theorems -/

/-- A successful upload response. -/
def okResp : Response :=
  ⟨200, "https://s3.us.archive.org/nasa/nasa_meta.json", [], ""⟩

/-- A failed upload response (access denied). -/
def badResp : Response :=
  ⟨403, "https://s3.us.archive.org/nasa/nasa_meta.json", [], "AccessDenied"⟩

/-- An upload job whose first two PUT attempts hit the overload signal and
whose third succeeds. -/
def slowThenOkJob : UploadJob :=
  ⟨⟨"https://s3.us.archive.org/nasa/nasa_meta.json", [("content-md5", "6f1834f5c70c0eabf93dea675ccf90c4")]⟩,
   fun i => if i < 2 then ⟨503, true⟩ else ⟨200, false⟩⟩

/-- An upload job every PUT attempt of which hits the overload signal. -/
def alwaysSlowJob : UploadJob :=
  ⟨⟨"https://s3.us.archive.org/nasa/nasa_files.xml", []⟩, fun _ => ⟨503, true⟩⟩

/-- A page oracle for a query with five hits served two rows at a time
over three pages. -/
def fivePageFetch : Nat → SearchPage := fun p =>
  if p = 1 then ⟨5, [[("identifier", "a")], [("identifier", "b")]]⟩
  else if p = 2 then ⟨5, [[("identifier", "c")], [("identifier", "d")]]⟩
  else if p = 3 then ⟨5, [[("identifier", "e")]]⟩
  else ⟨5, []⟩

/-! ## Theorems -/

/-- Claim C3: identifier validation accepts a string exactly when it
matches `[A-Za-z0-9_-]{3,80}`: length within `[3, 80]` and every
character an ASCII letter, digit, underscore or dash. -/
theorem validate_ia_identifier_iff (s : String) :
    validate_ia_identifier s = true ↔
      3 ≤ s.length ∧ s.length ≤ 80 ∧
        ∀ c ∈ s.data, ('A' ≤ c ∧ c ≤ 'Z') ∨ ('a' ≤ c ∧ c ≤ 'z') ∨
          ('0' ≤ c ∧ c ≤ '9') ∨ c = '_' ∨ c = '-' := by
  unfold validate_ia_identifier isIdChar
  simp only [Bool.and_eq_true, List.all_eq_true, Bool.or_eq_true, decide_eq_true_eq]
  constructor
  · rintro ⟨⟨h1, h2⟩, h3⟩
    exact ⟨h1, h2, fun c hc => by have := h3 c hc; tauto⟩
  · rintro ⟨h1, h2, h3⟩
    exact ⟨⟨h1, h2⟩, fun c hc => by have := h3 c hc; tauto⟩

/-- Claim C10: with `--remote-name` supplied alongside more than one local
file, `main` builds `{remote_name: first_file}`: the tail of the file
list does not appear in the `files` argument at all. -/
theorem buildFiles_remote_name_keeps_only_head (rn f1 : String) (rest : List String)
    (h : rn ≠ "") :
    buildFiles false (f1 :: rest) (some rn) = some (.named rn (.path f1)) := by
  simp [buildFiles, strOptTruthy, h]

/-- Witness for the claim C10 theorem at a three-file invocation. -/
theorem buildFiles_remote_name_keeps_only_head_witness :
    buildFiles false ["a.txt", "b.txt", "c.txt"] (some "remote.txt") =
      some (.named "remote.txt" (.path "a.txt")) :=
  buildFiles_remote_name_keeps_only_head "remote.txt" "a.txt" ["b.txt", "c.txt"]
    (by decide)

/-- Claim C9: the missing-remote-name schema conjunct rejects exactly the
file list `['-']` with a falsy `--remote-name`; and when `-` appears
together with at least one other (existing) file and no remote name, the
whole `<file>` validation succeeds. -/
theorem fileArg_dash_only_rejected (ex : String → Bool) (files : List String)
    (rn : Option String) :
    (fileArgRemoteNameOk files rn = false ↔
      files = ["-"] ∧ strOptTruthy rn = false) ∧
    ("-" ∈ files → 1 < files.length → (∀ x ∈ files, x ≠ "-" → ex x = true) →
      fileArgOk ex files none = true) := by
  constructor
  · unfold fileArgRemoteNameOk
    split
    · next h => exact iff_of_true rfl h
    · next h => exact iff_of_false (by simp) h
  · intro _ hlen hex
    unfold fileArgOk fileArgExistsOk fileArgRemoteNameOk
    rw [Bool.and_eq_true]
    constructor
    · rw [List.all_eq_true]
      intro x hx
      rcases eq_or_ne x "-" with h | h
      · simp [h]
      · simp [h, hex x hx h]
    · split
      · next h => rw [h.1] at hlen; simp at hlen
      · rfl

/-- Witness for the claim C9 theorem: `['-', 'a.txt']` with no remote name
passes the `<file>` validation. -/
theorem fileArg_dash_only_rejected_witness :
    fileArgOk (fun _ => true) ["-", "a.txt"] none = true :=
  (fileArg_dash_only_rejected (fun _ => true) ["-", "a.txt"] none).2
    (by simp) (by simp) (fun x _ _ => rfl)

/-- Claim C6: a stdin source (`<file>` equal to `['-']`) without a truthy
remote name, or a non-existent local path, makes schema validation fail:
`main` exits with code 1 having issued no network request. -/
theorem mainValidate_rejects_before_request (ex : String → Bool)
    (ident : Option String) (files : List String) (rn : Option String) (n : Nat)
    (h : (files = ["-"] ∧ strOptTruthy rn = false) ∨
      (∃ x ∈ files, x ≠ "-" ∧ ex x = false)) :
    mainValidate ex ident files rn n = (some 1, 0) := by
  have hfo : fileArgOk ex files rn = false := by
    rcases h with ⟨h1, h2⟩ | ⟨x, hx, hne, hexf⟩
    · have : fileArgRemoteNameOk files rn = false := by
        unfold fileArgRemoteNameOk
        rw [if_pos ⟨h1, h2⟩]
      simp [fileArgOk, this]
    · have : fileArgExistsOk ex files = false := by
        rw [fileArgExistsOk, List.all_eq_false]
        exact ⟨x, hx, by simp [hne, hexf]⟩
      simp [fileArgOk, this]
  simp [mainValidate, schemaOk, hfo]

/-- Witness for the claim C6 theorem: `ia upload nasa -` with no
`--remote-name` exits 1 with zero requests issued. -/
theorem mainValidate_rejects_before_request_witness :
    mainValidate (fun _ => true) (some "nasa") ["-"] none 5 = (some 1, 0) :=
  mainValidate_rejects_before_request (fun _ => true) (some "nasa") ["-"] none 5
    (Or.inl ⟨rfl, rfl⟩)

/-- Claim C2: the final check of `main` over the returned response list
exits 0 when every response is present and OK, and 1 when any response
is absent or not OK. -/
theorem mainExit_success_and_failure (outcome : ItemUploadOutcome) :
    ((∀ r ∈ collectResponses [] outcome, respOk r = true) →
      mainExit false outcome = 0) ∧
    ((∃ r ∈ collectResponses [] outcome, respOk r = false) →
      mainExit false outcome = 1) := by
  constructor
  · intro hall
    have h : (collectResponses [] outcome).all respOk = true :=
      List.all_eq_true.mpr hall
    simp [mainExit, uploadFiles, finalExit, h]
  · rintro ⟨r, hr, hbad⟩
    have h : (collectResponses [] outcome).all respOk = false := by
      rw [List.all_eq_false]
      exact ⟨r, hr, by simp [hbad]⟩
    have hne : collectResponses [] outcome ≠ [] := by
      intro he
      rw [he] at hr
      exact absurd hr (List.not_mem_nil r)
    simp [mainExit, uploadFiles, finalExit, h, hne]

/-- Witness for the claim C2 theorem: a single 200 response exits 0, a
single 403 response exits 1. -/
theorem mainExit_success_and_failure_witness :
    mainExit false (.success [okResp]) = 0 ∧ mainExit false (.success [badResp]) = 1 :=
  ⟨(mainExit_success_and_failure (.success [okResp])).1 (by decide),
   (mainExit_success_and_failure (.success [badResp])).2 ⟨some badResp, by decide, by decide⟩⟩

/-- Claim C8: in debug mode with at least one response collected,
`_upload_files` prints only the first description (later ones are cut
off by the bare `return` in the `finally` block), hands `None` back to
`main`, and the process exits 0 whatever the statuses were. -/
theorem uploadFiles_debug_returns_none (outcome : ItemUploadOutcome)
    (h : collectResponses [] outcome ≠ []) :
    (uploadFiles true outcome []).returned = none ∧
    (uploadFiles true outcome []).printedDescriptions =
      (collectResponses [] outcome).take 1 ∧
    mainExit true outcome = 0 := by
  cases hrs : collectResponses [] outcome with
  | nil => exact absurd hrs h
  | cons r rest =>
    refine ⟨?_, ?_, ?_⟩
    · simp [uploadFiles, hrs]
    · simp [uploadFiles, hrs]
    · simp [mainExit, uploadFiles, finalExit, hrs]

/-- Witness for the claim C8 theorem: a batch whose only response failed
with 403 still exits 0 under debug, with its list swallowed. -/
theorem uploadFiles_debug_returns_none_witness :
    (uploadFiles true (.success [badResp]) []).returned = none ∧
    mainExit true (.success [badResp]) = 0 :=
  ⟨(uploadFiles_debug_returns_none (.success [badResp]) (by decide)).1,
   (uploadFiles_debug_returns_none (.success [badResp]) (by decide)).2.2⟩

/-- Claim C1: a debug upload batch sends zero PUT requests and yields, for
every queued file, the description (endpoint and headers) of the request
that would have been sent. -/
theorem uploadBatch_debug_no_puts (jobs : List UploadJob) (retries : Nat) :
    (uploadBatch true retries jobs).2 = 0 ∧
    (uploadBatch true retries jobs).1 = jobs.map fun j => .described j.desc := by
  constructor
  · simp [uploadBatch, uploadFile]
  · simp [uploadBatch, uploadFile]

/-- Helper: if the first `N` responses (from `attempt` on) are the
overload signal, the next one is not, and the budget covers `N` retries,
the retry loop ends on that next response after `N + 1` PUTs and `N`
sleeps. -/
theorem retryLoop_first_success (net : Nat → UResponse) :
    ∀ (N budget attempt : Nat), N ≤ budget →
      (∀ i, i < N → isOverload (net (attempt + i)) = true) →
      isOverload (net (attempt + N)) = false →
      retryLoop net budget attempt = (net (attempt + N), N + 1, N) := by
  intro N
  induction N with
  | zero =>
    intro budget attempt _ _ hnot
    rw [Nat.add_zero] at hnot
    cases budget with
    | zero => rfl
    | succ b => simp [retryLoop, hnot]
  | succ N ih =>
    intro budget attempt hb hover hnot
    obtain ⟨b, rfl⟩ : ∃ b, budget = b + 1 := ⟨budget - 1, by omega⟩
    have h0 : isOverload (net attempt) = true := by
      have := hover 0 (Nat.succ_pos N)
      rwa [Nat.add_zero] at this
    have hrec : retryLoop net b (attempt + 1) = (net (attempt + 1 + N), N + 1, N) := by
      refine ih b (attempt + 1) (by omega) ?_ ?_
      · intro i hi
        have := hover (i + 1) (by omega)
        rwa [show attempt + (i + 1) = attempt + 1 + i by omega] at this
      · rwa [show attempt + 1 + N = attempt + (N + 1) by omega]
    simp only [retryLoop, h0, if_true, hrec]
    rw [show attempt + 1 + N = attempt + (N + 1) by omega]

/-- Helper: if every response up to index `R` (from `attempt` on) is the
overload signal, a budget of `R` is exhausted and the loop returns the
last overloaded response after `R + 1` PUTs and `R` sleeps. -/
theorem retryLoop_exhausted (net : Nat → UResponse) :
    ∀ (R attempt : Nat), (∀ i, i ≤ R → isOverload (net (attempt + i)) = true) →
      retryLoop net R attempt = (net (attempt + R), R + 1, R) := by
  intro R
  induction R with
  | zero =>
    intro attempt _
    rw [Nat.add_zero]
    rfl
  | succ R ih =>
    intro attempt hover
    have h0 : isOverload (net attempt) = true := by
      have := hover 0 (Nat.zero_le _)
      rwa [Nat.add_zero] at this
    have hrec : retryLoop net R (attempt + 1) = (net (attempt + 1 + R), R + 1, R) := by
      refine ih (attempt + 1) ?_
      intro i hi
      have := hover (i + 1) (by omega)
      rwa [show attempt + (i + 1) = attempt + 1 + i by omega] at this
    simp only [retryLoop, h0, if_true, hrec]
    rw [show attempt + 1 + R = attempt + (R + 1) by omega]

/-- Claim C4: one file whose first `N` PUT attempts answer 503 SlowDown
and whose `(N+1)`-th answers 200, uploaded with a retry budget of at
least `N`, yields that 200 response after exactly `N` sleeps. -/
theorem uploadFile_retries_then_succeeds (job : UploadJob) (retries N : Nat)
    (hbudget : N ≤ retries)
    (hover : ∀ i, i < N → isOverload (job.net i) = true)
    (hok : (job.net N).status = 200) :
    uploadFile false retries job = ⟨.sent (job.net N), N + 1, N⟩ := by
  have hnot : isOverload (job.net N) = false := by
    unfold isOverload
    rw [hok]
    simp
  have h := retryLoop_first_success job.net N retries 0 hbudget
    (by intro i hi; simpa using hover i hi) (by simpa using hnot)
  simp [uploadFile, h]

/-- Witness for the claim C4 theorem: two SlowDowns then a 200, with a
budget of three retries, give two sleeps, three PUTs and the 200
response. -/
theorem uploadFile_retries_then_succeeds_witness :
    uploadFile false 3 slowThenOkJob = ⟨.sent (slowThenOkJob.net 2), 3, 2⟩ :=
  uploadFile_retries_then_succeeds slowThenOkJob 3 2 (by decide) (by decide) rfl

/-- Claim C5: one file whose `R + 1` PUT attempts all answer 503 SlowDown,
uploaded with a retry budget of `R`, yields the last overloaded response
(no exception: the operation is a total function into responses) after
`R` sleeps. -/
theorem uploadFile_retry_exhaustion (job : UploadJob) (R : Nat)
    (hover : ∀ i, i ≤ R → isOverload (job.net i) = true) :
    uploadFile false R job = ⟨.sent (job.net R), R + 1, R⟩ := by
  have h := retryLoop_exhausted job.net R 0 (by intro i hi; simpa using hover i hi)
  simp [uploadFile, h]

/-- Witness for the claim C5 theorem: every attempt answers SlowDown, the
budget is two, and the loop returns the third (last) overloaded
response after two sleeps. -/
theorem uploadFile_retry_exhaustion_witness :
    uploadFile false 2 alwaysSlowJob = ⟨.sent (alwaysSlowJob.net 2), 3, 2⟩ :=
  uploadFile_retry_exhaustion alwaysSlowJob 2 (fun _ _ => rfl)

/-- Helper: summing page sizes `min r (F - i * r)` over `n` pages gives
`min F (n * r)`. -/
theorem sum_min_page_sizes (r : Nat) :
    ∀ (n F : Nat), ((List.range n).map fun i => min r (F - i * r)).sum = min F (n * r) := by
  intro n
  induction n with
  | zero => intro F; simp
  | succ n ih =>
    intro F
    rw [List.range_succ, List.map_append, List.sum_append, ih F]
    simp only [List.map_cons, List.map_nil, List.sum_cons, List.sum_nil]
    rw [show (n + 1) * r = n * r + r by ring]
    generalize n * r = a
    omega

/-- Helper: `ceil(F / r)` pages of `r` rows cover all `F` documents. -/
theorem pagesNeeded_mul_ge (F r : Nat) (hr : 0 < r) : F ≤ pagesNeeded F r * r := by
  unfold pagesNeeded
  have h1 : r * ((F + r - 1) / r) + (F + r - 1) % r = F + r - 1 := Nat.div_add_mod _ _
  have h2 : (F + r - 1) % r < r := Nat.mod_lt _ hr
  rw [Nat.mul_comm] at h1
  generalize (F + r - 1) / r * r = s at h1 ⊢
  generalize (F + r - 1) % r = m at h1 h2
  omega

/-- Claim C7: the length of a search result is `numFound` of the first
page, obtained from a single page request, and it equals the number of
documents a full iteration (one GET per page, `ceil(numFound / rows)`
pages) would yield. -/
theorem searchLen_eq_numFound (fetch : Nat → SearchPage) (rows : Nat) (hr : 0 < rows)
    (hpages : ∀ i, i < pagesNeeded (fetch 1).numFound rows →
      ((fetch (i + 1)).docs).length = min rows ((fetch 1).numFound - i * rows)) :
    searchLen fetch = (fetch 1).numFound ∧
    searchLenRequests = 1 ∧
    searchLen fetch = (searchIterate fetch rows).length ∧
    searchIterateRequests fetch rows = pagesNeeded (fetch 1).numFound rows := by
  refine ⟨rfl, rfl, ?_, rfl⟩
  unfold searchIterate searchLen
  rw [List.length_flatMap]
  simp only [Function.comp_def]
  rw [List.map_congr_left fun i hi => hpages i (List.mem_range.mp hi)]
  rw [sum_min_page_sizes]
  exact (Nat.min_eq_left (pagesNeeded_mul_ge _ _ hr)).symm

/-- Witness for the claim C7 theorem: five hits at two rows per page give
length five from the first page alone, matching the five documents a
three-page iteration yields. -/
theorem searchLen_eq_numFound_witness :
    searchLen fivePageFetch = 5 ∧
    searchLen fivePageFetch = (searchIterate fivePageFetch 2).length :=
  ⟨(searchLen_eq_numFound fivePageFetch 2 (by decide) (by decide)).1,
   (searchLen_eq_numFound fivePageFetch 2 (by decide) (by decide)).2.2.1⟩

end IA
